import Mathlib

/-!
Shallow embedding of the core logic of `src/app.py` (VSOP-Live-App):
the schema-tolerant column resolver (`get_flexible_col`, `ensure_col`),
the performance/event reconciliation (the left merge at lines 153-159,
the setlist filter at lines 251/306, the order normalization at lines
256/309 and the repeat lookup `past_perf` at lines 341-344), and the
link synthesizer `make_youtube_url` (lines 41-56).

Tables are modelled as a list of column names plus rows of cell values;
cell values are modelled by `Val` (a string cell, an integer cell, or
the pandas missing value NaN).  Python's `str()` conversion, truthiness,
`.lower()`, the `in` substring test and `str.replace("-", "0")` are
modelled explicitly.  The numeric grammar accepted by the model of
`int(float(.))` is plain unsigned decimal literals (optionally with a
fractional part), which covers every value the claims exercise; Python
also accepts exponents and signs, which never survive the code's
dash-replacement and are not modelled.
-/

namespace VSOP

/-- A spreadsheet cell as it exists after `load_data`: a string, an
integer (numeric columns keep their dtype), or the missing value NaN. -/
inductive Val where
  | str (s : String)
  | int (n : Int)
  | nan
deriving DecidableEq

/-- Python `str()` of a cell value (`str()` of pandas NaN is `"nan"`). -/
def pyStrV : Val → String
  | .str s => s
  | .int n => toString n
  | .nan => "nan"

/-- Python truthiness of a cell value (`""` and `0` are falsy; NaN is truthy). -/
def pyFalsy : Val → Bool
  | .str s => s == ""
  | .int n => n == 0
  | .nan => false

/-- Python `s.lower()` (ASCII case folding; the Japanese alias names are
unaffected by case folding in both Python and this model). -/
def pyLower (s : String) : String := ⟨s.data.map Char.toLower⟩

/-- Python's substring test `a in b`. -/
def pyIn (a b : String) : Bool := decide (a.data <:+: b.data)

/-- The do-not-match marker of `get_flexible_col` (app.py line 23): 翻訳. -/
def transMarker : String := "翻訳"

/-- Tier 1 of `get_flexible_col` (app.py lines 14-18), for one alias:
first column whose name equals the alias case-insensitively. -/
def t1hit (cols : List String) (t : String) : Option String :=
  cols.find? (fun c => pyLower t == pyLower c)

/-- Tier 2 of `get_flexible_col` (app.py lines 20-24), for one alias:
first column containing the alias as a substring and not containing the
do-not-match marker. -/
def t2hit (cols : List String) (t : String) : Option String :=
  cols.find? (fun c => pyIn t c && !(pyIn transMarker c))

/-- Tier 3 of `get_flexible_col` (app.py lines 26-30), for one alias:
first column containing the alias as a substring, marker allowed. -/
def t3hit (cols : List String) (t : String) : Option String :=
  cols.find? (fun c => pyIn t c)

/-- `get_flexible_col(df, target_names)` (app.py lines 7-31): three match
tiers in strict precedence, each scanning aliases in order and, per
alias, columns in order; `None` (here `none`) when nothing matches. -/
def get_flexible_col (cols targets : List String) : Option String :=
  match targets.findSome? (t1hit cols) with
  | some c => some c
  | none =>
    match targets.findSome? (t2hit cols) with
    | some c => some c
    | none => targets.findSome? (t3hit cols)

/-- A loaded sheet: column names (in order) and rows of cells. -/
structure Table where
  cols : List String
  rows : List (List Val)
deriving DecidableEq

/-- `df[virtual_name] = fallback_val` (app.py line 37): append a new
column populated with a constant value on every row. -/
def addCol (t : Table) (name : String) (fb : Val) : Table :=
  ⟨t.cols ++ [name], t.rows.map (fun r => r ++ [fb])⟩

/-- The deterministic virtual column name of app.py line 36:
first alias plus the fixed suffix " (仮想)". -/
def virtualName (t0 : String) : String := t0 ++ " (仮想)"

/-- `ensure_col(df, target_names, fallback_val)` (app.py lines 33-39).
Returns the resolved column name together with the (possibly extended)
table.  `none` models the `IndexError` that `target_names[0]` raises
when the alias list is empty and nothing matched. -/
def ensure_col (t : Table) (targets : List String) (fb : Val) :
    Option (String × Table) :=
  match get_flexible_col t.cols targets with
  | some c => some (c, t)
  | none =>
    match targets with
    | [] => none
    | t0 :: _ => some (virtualName t0, addCol t (virtualName t0) fb)

/-- Position of the first column with the given name, if any. -/
def colIdx (c : String) : List String → Option Nat
  | [] => none
  | c2 :: rest => if c2 == c then some 0 else (colIdx c rest).map (· + 1)

/-- The cell at a position of a row, if the row is long enough. -/
def cellAt : List Val → Nat → Option Val
  | [], _ => none
  | x :: _, 0 => some x
  | _ :: xs, n + 1 => cellAt xs n

/-- `row[c]` on a table: locate the column by name, then index into the
row; `none` models the KeyError raised on a column that does not exist. -/
def getCell (t : Table) (r : List Val) (c : String) : Option Val :=
  match colIdx c t.cols with
  | some i => cellAt r i
  | none => none

/-- `row[c]` where the caller is known not to fail (defaults to NaN). -/
def getCellD (t : Table) (r : List Val) (c : String) : Val :=
  (getCell t r c).getD Val.nan

/-- The pandas merge suffix rule for `suffixes=('', '_live')` (app.py
line 158): a right-table column is renamed with `_live` exactly when its
name collides with a left-table column; left columns keep their names. -/
def suffixRight (leftCols : List String) (c : String) : String :=
  if c ∈ leftCols then c ++ "_live" else c

/-- The left merge of app.py lines 153-159:
`df_songs.merge(df_lives[[rk, link]], left_on=lk, right_on=rk,
how='left', suffixes=('', '_live'))` with `lk` and `rk` distinct names
(as in the modelled scenarios).  Keys are compared raw — no string
conversion, no float-artifact stripping.  A row with no match keeps its
own cells and gets NaN in both appended columns; a row with matches is
duplicated once per match. -/
def mergeLeft (songs lives : Table) (lk rk link : String) : Table :=
  { cols := songs.cols ++ [suffixRight songs.cols rk, suffixRight songs.cols link]
    rows := songs.rows.flatMap (fun r =>
      let k := getCellD songs r lk
      match lives.rows.filter (fun e => getCellD lives e rk == k) with
      | [] => [r ++ [Val.nan, Val.nan]]
      | ms => ms.map (fun e => r ++ [getCellD lives e rk, getCellD lives e link])) }

/-- App.py line 160: `C_LIVE_YT = L_YT_LINK + "_live" if L_YT_LINK in
df_songs.columns else L_YT_LINK`, evaluated on the already-merged frame. -/
def C_LIVE_YT (mergedCols : List String) (lYt : String) : String :=
  if lYt ∈ mergedCols then lYt ++ "_live" else lYt

/-- The placeholder test of app.py line 45:
`not base_url or base_url == "-" or str(base_url).lower() == "nan" or
base_url == "#"`. -/
def isPlaceholderRef (v : Val) : Bool :=
  pyFalsy v || v == Val.str "-" || pyLower (pyStrV v) == "nan" || v == Val.str "#"

/-- Python `str.replace("-", "0")` (app.py line 51); the pattern is a
single character, so this is a character-wise map. -/
def replaceDash (s : String) : String :=
  ⟨s.data.map (fun c => if c == '-' then '0' else c)⟩

/-- Python `str.strip()` / the whitespace tolerance of `float()`. -/
def trimChars (l : List Char) : List Char :=
  ((l.dropWhile Char.isWhitespace).reverse.dropWhile Char.isWhitespace).reverse

/-- Split a character list on `.` (the decimal point). -/
def splitOnDot : List Char → List (List Char)
  | [] => [[]]
  | c :: cs =>
    if c = '.' then [] :: splitOnDot cs
    else
      match splitOnDot cs with
      | r :: rs => (c :: r) :: rs
      | [] => [[c]]

/-- Value of an unsigned decimal digit string (empty = 0, matching the
integer part of Python `float(".5")`). -/
def digitsToNat (l : List Char) : Nat :=
  l.foldl (fun a c => a * 10 + (c.toNat - 48)) 0

/-- Non-empty and all decimal digits. -/
def isDigits (l : List Char) : Bool := !l.isEmpty && l.all (·.isDigit)

/-- Model of Python `int(float(s))` for the strings this code can feed
it (no sign remains after dash replacement): a plain decimal literal,
optionally with a fractional part, truncated to its integer part;
`none` models the exception on anything else. -/
def parsePyNumber (s : String) : Option Nat :=
  match splitOnDot (trimChars s.data) with
  | [a] => if isDigits a then some (digitsToNat a) else none
  | [a, b] =>
    if (isDigits a || a.isEmpty) && (isDigits b || b.isEmpty)
        && !(a.isEmpty && b.isEmpty)
    then some (digitsToNat a) else none
  | _ => none

/-- App.py lines 49-53: `s = int(float(str(start_time).replace("-", "0")))`
with the bare `except` mapping any failure to `0`. -/
def secondsOf (start : Val) : Nat :=
  (parsePyNumber (replaceDash (pyStrV start))).getD 0

/-- `make_youtube_url(base_url, start_time)` (app.py lines 41-56).
Returns the absent-video sentinel `"#"` on a placeholder reference;
otherwise appends `t=<seconds>s` to the stripped reference, with `&`
when the reference already contains `?` and `?` otherwise. -/
def make_youtube_url (base start : Val) : String :=
  if isPlaceholderRef base then "#"
  else
    (⟨trimChars (pyStrV base).data⟩ : String)
      ++ (if pyIn "?" ⟨trimChars (pyStrV base).data⟩ then "&" else "?")
      ++ "t=" ++ toString (secondsOf start) ++ "s"

/-- The setlist filter of app.py lines 251/306:
`df_songs[df_songs[C_LIVE_LINK].astype(str) == str(selected_id)]` —
both sides converted with Python `str()`, nothing else normalized. -/
def liveSongsFilter (t : Table) (cLive : String) (sel : Val) : List (List Val) :=
  t.rows.filter (fun r => pyStrV (getCellD t r cLive) == pyStrV sel)

/-- The repeat lookup of app.py lines 337-344: skip when
`str(song[C_LAST])` is falsy or one of `"nan"`, `"-"`, `"0"`; otherwise
filter the songs table for rows whose order field (as `str`) equals the
repeat key and whose live id (as `str`) differs from the selected live,
and take `head(1)`. -/
def past_perf (t : Table) (cOrder cLive : String) (lastCell selId : Val) :
    Option (List Val) :=
  if pyStrV lastCell = "" ∨ pyStrV lastCell = "nan" ∨ pyStrV lastCell = "-"
      ∨ pyStrV lastCell = "0" then none
  else
    (t.rows.filter (fun r =>
      pyStrV (getCellD t r cOrder) == pyStrV lastCell
        && !(pyStrV (getCellD t r cLive) == pyStrV selId))).head?

/-- The first maximal digit run of a string, as matched by the regex
`(\d+)` in `str.extract` (app.py lines 256/309). -/
def firstDigitRun : List Char → Option (List Char)
  | [] => none
  | c :: cs =>
    if c.isDigit then some (c :: cs.takeWhile Char.isDigit)
    else firstDigitRun cs

/-- App.py lines 256/309: `astype(str).str.extract('(\d+)').fillna(999)
.astype(int)` — the numeric ordering key: value of the first digit run,
`999` when the string contains no digit. -/
def toOrderKey (v : Val) : Nat :=
  match firstDigitRun (pyStrV v).data with
  | some ds => digitsToNat ds
  | none => 999

/-- The setlist sort of app.py lines 257/310, modelled with the stable
`insertionSort` on the normalized key.  The source delegates to pandas
`sort_values` whose default kind is not stable; only tie-independent
consequences (key mapping, permutation, sorting of distinct keys) are
claimed of this model. -/
def sortSetlist (t : Table) (cOrder : String) : List (List Val) :=
  List.insertionSort
    (fun r1 r2 => toOrderKey (getCellD t r1 cOrder) ≤ toOrderKey (getCellD t r2 cOrder))
    t.rows

/-- The status alias list of app.py line 148. -/
def statusAliases : List String := ["STATUS", "状態", "ステータス"]

/-- App.py line 288: `df_lives[df_lives[L_STATUS].astype(str)
.str.contains('未', na=False)]` — the upcoming-events selection. -/
def upcomingRows (t : Table) (cStatus : String) : List (List Val) :=
  t.rows.filter (fun r => pyIn "未" (pyStrV (getCellD t r cStatus)))

/-- Songs sheet for exercising the merge of lines 153-160: its live-id
column resolves to ライブ番号 and it has no column named 動画リンク. -/
def c3songs : Table := ⟨["楽曲名", "ライブ番号"], [[Val.str "SongA", Val.int 1]]⟩

/-- Events sheet whose id column resolves to ID and whose video-link
column resolves to 動画リンク. -/
def c3lives : Table :=
  ⟨["ID", "動画リンク"], [[Val.int 1, Val.str "https://youtu.be/x"]]⟩

/-- The enriched songs frame produced by app.py lines 153-159 on
`c3songs`/`c3lives`. -/
def c3merged : Table := mergeLeft c3songs c3lives "ライブ番号" "ID" "動画リンク"

/-- Songs sheet whose single performance has the float-formatted live id
`"42.0"`. -/
def c2songs : Table := ⟨["楽曲名", "ライブ番号"], [[Val.str "S", Val.str "42.0"]]⟩

/-- Events sheet whose single event has the string live id `"42"`. -/
def c2lives : Table := ⟨["ID", "動画リンク"], [[Val.str "42", Val.str "U"]]⟩

/-- Songs sheet with live ids in the three shapes `42`, `"42"`, `"42.0"`. -/
def c2tbl : Table :=
  ⟨["楽曲名", "ライブ番号"],
   [[Val.str "a", Val.int 42], [Val.str "b", Val.str "42"],
    [Val.str "c", Val.str "42.0"]]⟩

/-! ## Helper lemmas -/

lemma findSome?_eq_none_my {α β : Type} (f : α → Option β) (l : List α) :
    l.findSome? f = none ↔ ∀ a ∈ l, f a = none := by
  induction l with
  | nil => simp [List.findSome?]
  | cons a l ih =>
    cases ha : f a with
    | some b => simp [List.findSome?, ha]
    | none => simp [List.findSome?, ha, ih]

lemma find?_eq_none_my {α : Type} (p : α → Bool) (l : List α) :
    l.find? p = none ↔ ∀ a ∈ l, p a = false := by
  induction l with
  | nil => simp [List.find?]
  | cons a l ih =>
    cases ha : p a with
    | true => simp [List.find?, ha]
    | false => simp [List.find?, ha, ih]

lemma find?_some_my {α : Type} {p : α → Bool} {l : List α} {a : α}
    (h : l.find? p = some a) : p a = true := by
  induction l with
  | nil => simp [List.find?] at h
  | cons b l ih =>
    by_cases hb : p b = true
    · simp [List.find?, hb] at h; exact h ▸ hb
    · rw [List.find?, Bool.of_not_eq_true hb] at h; exact ih h

lemma findSome?_eq_some_exists {α β : Type} {f : α → Option β} {l : List α} {b : β}
    (h : l.findSome? f = some b) : ∃ a ∈ l, f a = some b := by
  induction l with
  | nil => simp [List.findSome?] at h
  | cons a l ih =>
    cases ha : f a with
    | some c =>
      rw [List.findSome?, ha] at h
      exact ⟨a, by simp, by rw [ha]; exact h⟩
    | none =>
      rw [List.findSome?, ha] at h
      obtain ⟨x, hx, hfx⟩ := ih h
      exact ⟨x, by simp [hx], hfx⟩

lemma find?_append_single {α : Type} (p : α → Bool) (l : List α) (v : α)
    (h : ∀ c ∈ l, p c = false) :
    (l ++ [v]).find? p = if p v then some v else none := by
  induction l with
  | nil =>
    cases hv : p v with
    | true => simp [List.find?, hv]
    | false => simp [List.find?, hv]
  | cons a l ih =>
    have ha : p a = false := h a (by simp)
    rw [List.cons_append, List.find?, ha]
    exact ih (fun c hc => h c (by simp [hc]))

lemma findSome?_none_or_const {α β : Type} (f : α → Option β) (v : β) (l : List α)
    (h : ∀ a ∈ l, f a = none ∨ f a = some v) :
    l.findSome? f = none ∨ l.findSome? f = some v := by
  induction l with
  | nil => left; rfl
  | cons a l ih =>
    rcases h a (by simp) with ha | ha
    · rw [List.findSome?, ha]
      exact ih (fun x hx => h x (by simp [hx]))
    · rw [List.findSome?, ha]
      right; rfl

lemma data_append (a b : String) : (a ++ b).data = a.data ++ b.data := rfl

lemma pyIn_self_append (a b : String) : pyIn a (a ++ b) = true := by
  unfold pyIn
  rw [data_append]
  exact decide_eq_true ⟨[], b.data, by simp⟩

lemma filter_head?_eq_find? {α : Type} (p : α → Bool) (l : List α) :
    (l.filter p).head? = l.find? p := by
  induction l with
  | nil => rfl
  | cons a l ih =>
    cases ha : p a with
    | true => simp [List.filter, List.find?, ha]
    | false => simp [List.filter, List.find?, ha, ih]

lemma filter_eq_nil_my {α : Type} (p : α → Bool) (l : List α)
    (h : ∀ a ∈ l, p a = false) : l.filter p = [] := by
  induction l with
  | nil => rfl
  | cons a l ih =>
    rw [List.filter, h a (by simp)]
    exact ih (fun x hx => h x (by simp [hx]))

lemma colIdx_append_self (c : String) (l : List String)
    (h : ∀ c2 ∈ l, (c2 == c) = false) :
    colIdx c (l ++ [c]) = some l.length := by
  induction l with
  | nil => simp [colIdx]
  | cons a l ih =>
    have ha : (a == c) = false := h a (by simp)
    rw [List.cons_append, colIdx, ha]
    simp only [Bool.false_eq_true, if_false]
    rw [ih (fun x hx => h x (by simp [hx]))]
    simp

lemma cellAt_append_len (r : List Val) (fb : Val) :
    cellAt (r ++ [fb]) r.length = some fb := by
  induction r with
  | nil => rfl
  | cons a r ih => simpa [cellAt] using ih

/-- From a fully failed resolution, all three tiers failed. -/
lemma gfc_tiers_none {cols targets : List String}
    (h : get_flexible_col cols targets = none) :
    targets.findSome? (t1hit cols) = none ∧
    targets.findSome? (t2hit cols) = none ∧
    targets.findSome? (t3hit cols) = none := by
  unfold get_flexible_col at h
  cases e1 : targets.findSome? (t1hit cols) with
  | some c => rw [e1] at h; exact absurd h (by simp)
  | none =>
    rw [e1] at h
    cases e2 : targets.findSome? (t2hit cols) with
    | some c => rw [e2] at h; exact absurd h (by simp)
    | none => rw [e2] at h; exact ⟨rfl, rfl, h⟩

/-- From a fully failed resolution, no alias is a substring of any column. -/
lemma gfc_none_no_substr {cols targets : List String}
    (h : get_flexible_col cols targets = none) :
    ∀ t ∈ targets, ∀ c ∈ cols, pyIn t c = false := by
  intro t ht c hc
  have h3 := (gfc_tiers_none h).2.2
  have := (find?_eq_none_my _ _).mp ((findSome?_eq_none_my (t3hit cols) targets).mp h3 t ht) c hc
  exact this

/-- Adding the virtual column to a table on which resolution failed makes
resolution find exactly that virtual column. -/
lemma gfc_extend_virtual (cols : List String) (t0 : String) (ts : List String)
    (h : get_flexible_col cols (t0 :: ts) = none) :
    get_flexible_col (cols ++ [virtualName t0]) (t0 :: ts) = some (virtualName t0) := by
  obtain ⟨h1, h2, h3⟩ := gfc_tiers_none h
  have H1 : ∀ t ∈ t0 :: ts, ∀ c ∈ cols, (pyLower t == pyLower c) = false := by
    intro t ht c hc
    exact (find?_eq_none_my _ _).mp
      ((findSome?_eq_none_my (t1hit cols) (t0 :: ts)).mp h1 t ht) c hc
  have H2 : ∀ t ∈ t0 :: ts, ∀ c ∈ cols, (pyIn t c && !(pyIn transMarker c)) = false := by
    intro t ht c hc
    exact (find?_eq_none_my _ _).mp
      ((findSome?_eq_none_my (t2hit cols) (t0 :: ts)).mp h2 t ht) c hc
  have H3 : ∀ t ∈ t0 :: ts, ∀ c ∈ cols, (pyIn t c) = false := by
    intro t ht c hc
    exact (find?_eq_none_my _ _).mp
      ((findSome?_eq_none_my (t3hit cols) (t0 :: ts)).mp h3 t ht) c hc
  have E1 : ∀ t ∈ t0 :: ts, t1hit (cols ++ [virtualName t0]) t = none ∨
      t1hit (cols ++ [virtualName t0]) t = some (virtualName t0) := by
    intro t ht
    unfold t1hit
    rw [find?_append_single _ _ _ (H1 t ht)]
    cases (pyLower t == pyLower (virtualName t0)) <;> simp
  have E2 : ∀ t ∈ t0 :: ts, t2hit (cols ++ [virtualName t0]) t = none ∨
      t2hit (cols ++ [virtualName t0]) t = some (virtualName t0) := by
    intro t ht
    unfold t2hit
    rw [find?_append_single _ _ _ (H2 t ht)]
    cases (pyIn t (virtualName t0) && !(pyIn transMarker (virtualName t0))) <;> simp
  have E3head : t3hit (cols ++ [virtualName t0]) t0 = some (virtualName t0) := by
    unfold t3hit
    rw [find?_append_single _ _ _ (H3 t0 (by simp))]
    rw [show pyIn t0 (virtualName t0) = true from pyIn_self_append t0 " (仮想)"]
    rfl
  unfold get_flexible_col
  rcases findSome?_none_or_const _ _ _ E1 with F1 | F1
  · rw [F1]
    rcases findSome?_none_or_const _ _ _ E2 with F2 | F2
    · rw [F2, List.findSome?, E3head]
    · rw [F2]
  · rw [F1]

/-- A synthesized playback URL is never the absent-video sentinel. -/
lemma append_ne_hash (a b c : String) : a ++ b ++ "t=" ++ c ++ "s" ≠ "#" := by
  intro h
  have hd := congrArg String.data h
  simp only [data_append] at hd
  have hl := congrArg List.length hd
  simp only [List.length_append] at hl
  have h2 : ("t=".data).length = 2 := rfl
  have h1 : ("s".data).length = 1 := rfl
  have h0 : ("#".data).length = 1 := rfl
  rw [h2, h1, h0] at hl
  omega

lemma firstDigitRun_none (l : List Char)
    (h : l.all (fun c => !c.isDigit) = true) : firstDigitRun l = none := by
  induction l with
  | nil => rfl
  | cons c cs ih =>
    rw [List.all_cons, Bool.and_eq_true] at h
    rw [firstDigitRun]
    have hc : c.isDigit = false := by
      cases hx : c.isDigit
      · rfl
      · rw [hx] at h; exact absurd h.1 (by simp)
    rw [hc]
    simp only [Bool.false_eq_true, if_false]
    exact ih h.2

/-! ## Claim theorems -/

/-- C1, counterexample.  The claim says a bare identifier reference such
as `"abc123"` with offset `"75"` yields the canonical full-form watch
URL `".../watch?v=abc123&t=75s"`.  The code performs no identifier
extraction and builds no canonical URL: it returns `"abc123?t=75s"`,
which contains neither `watch` nor a video-host domain. -/
theorem link_canonicalization_counterexample :
    make_youtube_url (Val.str "abc123") (Val.str "75") = "abc123?t=75s" ∧
    pyIn "watch" (make_youtube_url (Val.str "abc123") (Val.str "75")) = false ∧
    pyIn "youtu" (make_youtube_url (Val.str "abc123") (Val.str "75")) = false := by
  decide

/-- C1, amended.  `make_youtube_url` treats every non-placeholder
reference as an opaque URL: it appends `t=<seconds>s` using `&` when the
reference already contains `?` and `?` otherwise, extracting nothing —
so `"abc123"` yields `"abc123?t=75s"`, a short link keeps its short
form, a full watch link gets `&t=75s`, and the placeholder `"-"` yields
the sentinel for every offset. -/
theorem link_opaque_append :
    (∀ start : Val, make_youtube_url (Val.str "-") start = "#") ∧
    make_youtube_url (Val.str "abc123") (Val.str "75") = "abc123?t=75s" ∧
    make_youtube_url (Val.str "https://youtu.be/abc123") (Val.int 0)
      = "https://youtu.be/abc123?t=0s" ∧
    make_youtube_url (Val.str "https://www.youtube.com/watch?v=abc123") (Val.str "75")
      = "https://www.youtube.com/watch?v=abc123&t=75s" := by
  exact ⟨fun start => rfl, by decide, by decide, by decide⟩

/-- C5, confirmed.  `make_youtube_url` is total (a Lean function by
construction, mirroring the bare `except` that catches the only raising
expression), returns the absent-video sentinel `"#"` exactly on the
empty/placeholder references of line 45, and the offset coercion sends
the literal `"-"` sentinel and every unparseable value to zero while
parsing plain numbers normally. -/
theorem link_total_sentinel (base start : Val) :
    (make_youtube_url base start = "#" ↔ isPlaceholderRef base = true) ∧
    secondsOf (Val.str "-") = 0 ∧
    secondsOf (Val.str "abc") = 0 ∧
    secondsOf Val.nan = 0 ∧
    secondsOf (Val.str "75") = 75 := by
  refine ⟨⟨?_, ?_⟩, by decide, by decide, by decide, by decide⟩
  · intro h
    by_contra hnp
    have hb : isPlaceholderRef base = false := by
      cases hx : isPlaceholderRef base
      · rfl
      · exact absurd hx hnp
    unfold make_youtube_url at h
    rw [hb] at h
    simp only [Bool.false_eq_true, if_false] at h
    exact absurd h (append_ne_hash _ _ _)
  · intro h
    unfold make_youtube_url
    rw [h]
    rfl

/-- C6, confirmed.  The repeat lookup skips exactly the keys whose
string form is empty, `"nan"`, `"-"` or `"0"` (the code's
empty/placeholder/zero forms); otherwise it returns the first record in
table order whose order field (as `str`) equals the key and whose live
id (as `str`) differs from the selected live, and — being a `head(1)` —
at most one result.  Concretely, with events A and B both holding an
order-5 record, the lookup from another event returns A's record, the
first in table order; a `"0"` key is skipped. -/
theorem past_perf_first_match :
    (∀ (t : Table) (cOrder cLive : String) (lastCell selId : Val),
      past_perf t cOrder cLive lastCell selId =
        if pyStrV lastCell = "" ∨ pyStrV lastCell = "nan" ∨ pyStrV lastCell = "-"
            ∨ pyStrV lastCell = "0" then none
        else t.rows.find? (fun r =>
          pyStrV (getCellD t r cOrder) == pyStrV lastCell
            && !(pyStrV (getCellD t r cLive) == pyStrV selId))) ∧
    past_perf ⟨["演奏番号", "ライブ番号"],
        [[Val.int 5, Val.str "A"], [Val.int 5, Val.str "B"]]⟩
      "演奏番号" "ライブ番号" (Val.str "5") (Val.str "C")
      = some [Val.int 5, Val.str "A"] ∧
    past_perf ⟨["演奏番号", "ライブ番号"],
        [[Val.int 5, Val.str "A"], [Val.int 5, Val.str "B"]]⟩
      "演奏番号" "ライブ番号" (Val.str "0") (Val.str "C") = none := by
  refine ⟨?_, by decide, by decide⟩
  intro t cOrder cLive lastCell selId
  unfold past_perf
  split
  · rfl
  · exact filter_head?_eq_find? _ _

/-- C9, counterexample.  The claim says tier 2 matches when the alias is
a substring of the column name *or vice versa*, and that a marker-bearing
column is accepted when the marker is itself an alias candidate.
Neither holds: the column `"Son"` is a substring of the alias `"Song"`
yet resolution finds nothing; and with the marker 翻訳 among the alias
candidates, the marker-bearing column `"A翻訳"` is still rejected at
tier 2, so the plain later column `"B"` wins instead. -/
theorem substring_match_counterexample :
    pyIn "Son" "Song" = true ∧
    get_flexible_col ["Son"] ["Song"] = none ∧
    get_flexible_col ["A翻訳", "B"] ["翻訳", "B"] = some "B" := by
  decide

/-- C9, amended.  Tier 2 matches only when the alias is a substring of
the column name (one direction), and unconditionally rejects columns
containing the marker 翻訳, whatever the alias candidates are; a
marker-bearing column can only be selected at tier 3, after tiers 1-2
found nothing.  Concretely: `"曲名X"` is preferred over the marked
`"曲名 翻訳"`; the marked column is selected when it is the sole
substring match; a column that is merely a substring of an alias is
never matched; and no tier-2 result ever contains the marker. -/
theorem substring_match_amended :
    get_flexible_col ["曲名 翻訳", "曲名X"] ["曲名"] = some "曲名X" ∧
    get_flexible_col ["曲名 翻訳"] ["曲名"] = some "曲名 翻訳" ∧
    get_flexible_col ["Son"] ["Song"] = none ∧
    (∀ (cols targets : List String) (c : String),
      targets.findSome? (t2hit cols) = some c → pyIn transMarker c = false) := by
  refine ⟨by decide, by decide, by decide, ?_⟩
  intro cols targets c h
  obtain ⟨t, _, hf⟩ := findSome?_eq_some_exists h
  have hp := find?_some_my hf
  rw [Bool.and_eq_true] at hp
  cases hx : pyIn transMarker c
  · rfl
  · rw [hx] at hp
    exact absurd hp.2 (by simp)

/-- C9 witness: the amended tier-2 marker guarantee applied at the
spec's own example shape. -/
theorem substring_match_amended_witness :
    (["曲名"] : List String).findSome? (t2hit ["曲名 翻訳", "曲名X"]) = some "曲名X" ∧
    pyIn transMarker "曲名X" = false :=
  ⟨by decide,
   substring_match_amended.2.2.2 ["曲名 翻訳", "曲名X"] ["曲名"] "曲名X" (by decide)⟩

/-- C7, counterexample.  The claim says every non-numeric or unparseable
order value maps to a very large key and sorts last.  `"x1"` is not a
number (Python `float("x1")` raises), yet the regex extraction keys it
by its digit run `1`, so it sorts *first*, before `"2"`. -/
theorem order_fallback_counterexample :
    toOrderKey (Val.str "x1") = 1 ∧
    sortSetlist ⟨["演奏番号"], [[Val.str "2"], [Val.str "x1"]]⟩ "演奏番号"
      = [[Val.str "x1"], [Val.str "2"]] := by
  decide

/-- C7, amended.  The order coercion extracts the first digit run as the
key and maps every value containing *no digit at all* to the fixed key
`999`; it never raises (total by construction) and never drops a record
(the sort permutes the rows).  The spec's example holds: orders
`["1","3","x","2"]` sort as `1,2,3,x`. -/
theorem order_fallback_amended :
    (∀ v : Val, ((pyStrV v).data.all (fun c => !c.isDigit)) = true →
      toOrderKey v = 999) ∧
    sortSetlist ⟨["演奏番号"],
        [[Val.str "1"], [Val.str "3"], [Val.str "x"], [Val.str "2"]]⟩ "演奏番号"
      = [[Val.str "1"], [Val.str "2"], [Val.str "3"], [Val.str "x"]] ∧
    (∀ (t : Table) (c : String), (sortSetlist t c).Perm t.rows) := by
  refine ⟨?_, by decide, ?_⟩
  · intro v hv
    unfold toOrderKey
    rw [firstDigitRun_none _ hv]
  · intro t c
    exact List.perm_insertionSort _ _

/-- C7 witness: a digit-free order value keys to 999. -/
theorem order_fallback_amended_witness :
    ((pyStrV (Val.str "x")).data.all (fun c => !c.isDigit)) = true ∧
    toOrderKey (Val.str "x") = 999 :=
  ⟨by decide, order_fallback_amended.1 (Val.str "x") (by decide)⟩

/-- C4, counterexample.  The claim quantifies over every table and alias
list, but with an empty alias list and no match, `ensure_col` evaluates
`target_names[0]` and raises IndexError (modelled as `none`): resolution
is not total there. -/
theorem resolver_empty_alias_counterexample :
    ensure_col ⟨["日付"], [[Val.str "x"]]⟩ [] (Val.str "") = none := by
  decide

/-- C4, amended.  For every table and *nonempty* alias list, resolution
is total and idempotent: `ensure_col` returns a column name, a second
call with identical arguments on the resulting table returns the same
name and the same table (so at most one virtual column is ever created
per logical field), and the table grows by at most one column. -/
theorem resolver_total_idempotent (t : Table) (targets : List String) (fb : Val)
    (hne : targets ≠ []) :
    ∃ c t2, ensure_col t targets fb = some (c, t2) ∧
      ensure_col t2 targets fb = some (c, t2) ∧
      t2.cols.length ≤ t.cols.length + 1 := by
  cases e : get_flexible_col t.cols targets with
  | some c =>
    refine ⟨c, t, ?_, ?_, Nat.le_succ _⟩ <;> simp only [ensure_col, e]
  | none =>
    obtain ⟨t0, ts, rfl⟩ : ∃ t0 ts, targets = t0 :: ts := by
      cases targets with
      | nil => exact absurd rfl hne
      | cons a l => exact ⟨a, l, rfl⟩
    refine ⟨virtualName t0, addCol t (virtualName t0) fb, ?_, ?_, ?_⟩
    · simp only [ensure_col, e]
    · have h2 := gfc_extend_virtual t.cols t0 ts e
      have hcols : (addCol t (virtualName t0) fb).cols = t.cols ++ [virtualName t0] := rfl
      simp only [ensure_col, hcols, h2]
    · show (t.cols ++ [virtualName t0]).length ≤ t.cols.length + 1
      rw [List.length_append]
      simp

/-- C4 witness: resolving a missing STATUS field on a table that lacks
it, twice, yields the same virtual column and a stable table. -/
theorem resolver_total_idempotent_witness :
    (["STATUS"] : List String) ≠ [] ∧
    ∃ c t2, ensure_col ⟨["日付"], []⟩ ["STATUS"] (Val.str "済") = some (c, t2) ∧
      ensure_col t2 ["STATUS"] (Val.str "済") = some (c, t2) ∧
      t2.cols.length ≤ (Table.mk ["日付"] []).cols.length + 1 :=
  ⟨by decide, resolver_total_idempotent ⟨["日付"], []⟩ ["STATUS"] (Val.str "済") (by decide)⟩

/-- C10, confirmed.  When no column of the events table matches any
status alias, the synthesized virtual status column fills every row with
the completed marker 済, and since the upcoming selection keeps exactly
the rows whose status contains 未, it is empty: no event is treated as
scheduled. -/
theorem virtual_status_makes_upcoming_empty (t : Table)
    (hlen : ∀ r ∈ t.rows, r.length = t.cols.length)
    (h : get_flexible_col t.cols statusAliases = none) :
    ∃ t2, ensure_col t statusAliases (Val.str "済") = some (virtualName "STATUS", t2) ∧
      (∀ r ∈ t2.rows, getCellD t2 r (virtualName "STATUS") = Val.str "済") ∧
      upcomingRows t2 (virtualName "STATUS") = [] := by
  have hsub := gfc_none_no_substr h "STATUS" (by simp [statusAliases])
  have hnotin : ∀ c ∈ t.cols, (c == virtualName "STATUS") = false := by
    intro c hc
    cases hb : (c == virtualName "STATUS")
    · rfl
    · exfalso
      have hceq : c = virtualName "STATUS" := eq_of_beq hb
      have hf : pyIn "STATUS" c = false := hsub c hc
      rw [hceq,
        show pyIn "STATUS" (virtualName "STATUS") = true from
          pyIn_self_append "STATUS" " (仮想)"] at hf
      exact absurd hf (by simp)
  have hcell : ∀ r2 ∈ (addCol t (virtualName "STATUS") (Val.str "済")).rows,
      getCellD (addCol t (virtualName "STATUS") (Val.str "済")) r2 (virtualName "STATUS")
        = Val.str "済" := by
    intro r2 hr2
    obtain ⟨r, hr, rfl⟩ := List.mem_map.mp hr2
    unfold getCellD getCell
    have hidx : colIdx (virtualName "STATUS")
        (addCol t (virtualName "STATUS") (Val.str "済")).cols = some t.cols.length := by
      show colIdx (virtualName "STATUS") (t.cols ++ [virtualName "STATUS"])
        = some t.cols.length
      exact colIdx_append_self _ _ hnotin
    rw [hidx]
    have hc2 : cellAt (r ++ [Val.str "済"]) t.cols.length = some (Val.str "済") := by
      rw [← hlen r hr]
      exact cellAt_append_len r _
    show (cellAt (r ++ [Val.str "済"]) t.cols.length).getD Val.nan = Val.str "済"
    rw [hc2]
    rfl
  refine ⟨addCol t (virtualName "STATUS") (Val.str "済"), ?_, hcell, ?_⟩
  · simp only [ensure_col, h]
    rfl
  · unfold upcomingRows
    apply filter_eq_nil_my
    intro r2 hr2
    rw [hcell r2 hr2]
    decide

/-- C10 witness: an events table with only a date column. -/
theorem virtual_status_witness :
    (∀ r ∈ (Table.mk ["日付"] [[Val.str "2026-01-01"]]).rows,
        r.length = (Table.mk ["日付"] [[Val.str "2026-01-01"]]).cols.length) ∧
    get_flexible_col (Table.mk ["日付"] [[Val.str "2026-01-01"]]).cols statusAliases
      = none ∧
    ∃ t2, ensure_col (Table.mk ["日付"] [[Val.str "2026-01-01"]]) statusAliases
        (Val.str "済") = some (virtualName "STATUS", t2) ∧
      (∀ r ∈ t2.rows, getCellD t2 r (virtualName "STATUS") = Val.str "済") ∧
      upcomingRows t2 (virtualName "STATUS") = [] :=
  ⟨by decide, by decide,
   virtual_status_makes_upcoming_empty _ (by decide) (by decide)⟩

/-- C2, counterexample.  The claim says the join key is string-normalized
with `".0"` artifacts stripped, so `"42.0"` and `42`/`"42"` are equal
join keys.  The merge of lines 153-159 compares keys raw: a performance
with key `"42.0"` matches no event with key `"42"` and is left with NaN
in the attached columns; even under the `str()` conversion used at line
251, `"42.0"` differs from `str(42)`. -/
theorem join_normalization_counterexample :
    (mergeLeft c2songs c2lives "ライブ番号" "ID" "動画リンク").rows
      = [[Val.str "S", Val.str "42.0", Val.nan, Val.nan]] ∧
    pyStrV (Val.str "42.0") ≠ pyStrV (Val.int 42) := by
  decide

/-- C2, amended.  The merge compares raw key values with no
normalization (only an identical raw key matches); the setlist filter of
lines 251/306 converts both sides with `str()`, making `42` and `"42"`
equal there, but no `".0"` stripping happens anywhere, so `"42.0"`
remains a distinct key in both places. -/
theorem join_normalization_amended :
    liveSongsFilter c2tbl "ライブ番号" (Val.int 42)
      = [[Val.str "a", Val.int 42], [Val.str "b", Val.str "42"]] ∧
    (mergeLeft ⟨["楽曲名", "ライブ番号"], [[Val.str "x", Val.str "42"]]⟩ c2lives
        "ライブ番号" "ID" "動画リンク").rows
      = [[Val.str "x", Val.str "42", Val.str "42", Val.str "U"]] ∧
    pyStrV (Val.int 42) = pyStrV (Val.str "42") ∧
    pyStrV (Val.str "42.0") ≠ pyStrV (Val.int 42) := by
  decide

/-- C3, code bug.  The merge does attach the event's video link (it is
present under the unsuffixed name 動画リンク), but line 160 tests
`L_YT_LINK in df_songs.columns` against the *already merged* frame —
always true — and therefore names the attached column
`動画リンク_live`, which does not exist when the songs sheet had no
colliding column: reading the base link from any enriched record then
raises KeyError (modelled as `none`), contradicting the claim that the
read never fails. -/
theorem yt_link_read_fails :
    c3merged.rows ≠ [] ∧
    C_LIVE_YT c3merged.cols "動画リンク" = "動画リンク_live" ∧
    (∀ r ∈ c3merged.rows,
      getCell c3merged r (C_LIVE_YT c3merged.cols "動画リンク") = none) ∧
    (∀ r ∈ c3merged.rows,
      getCell c3merged r "動画リンク" = some (Val.str "https://youtu.be/x")) := by
  decide

end VSOP
